import Mathlib

/-!
Shallow embedding of `src/TableMongo/query.py` (the `Query`, `LogicOperator`,
`AND`, `OR` classes) together with the external collaborators the file uses
(`Property`, `PropertyQuery`, `Key`, the model class and the storage cursor),
which are modelled from the spec where their code is not part of `src/`.

Conventions of the embedding:
- Python BSON dictionaries/lists become the inductive `Bson` type; packed
  values are integers (`Bson.int`).
- Python object identity of a `Property` is modelled by its `pid` field
  (Python dict keys on `Property` objects use default identity hashing).
- The mutable per-node memoization slot `self._bson` becomes an explicit
  `Option Bson` field of a logic node; every compilation returns the updated
  node alongside its result, so caching effects (including those of a call
  that raises) are observable.
- A raised Python exception becomes `Except.error`; `KeyError` (from
  `attr_map[partialquery.property]`) and `AttributeError` (from reading a
  missing attribute) are the two kinds that can occur in this file.
-/

namespace TableMongo

/-- BSON values as built by `query.py`: integer leaves (packed values),
documents (Python dicts with string keys, in insertion order) and arrays. -/
inductive Bson : Type where
  | int : Int → Bson
  | doc : List (String × Bson) → Bson
  | arr : List Bson → Bson

/-- Modelled from the spec: a field-owning property descriptor (from the
missing `properties.py`). `pid` stands for the Python object identity of the
descriptor; `pack` is the property's value-packing function `_pack`. -/
structure Property where
  pid : Nat
  pack : Int → Int

/-- Modelled from the spec: a Comparison Unit (`PropertyQuery` from the
missing `properties.py`) — the immutable triple of a property reference, a
native operator string (such as a dollar-prefixed comparison keyword), and an
application-level value. `query.py` reads exactly the fields
`.property`, `.operator` and `.value` of it. -/
structure PropertyQuery where
  property : Property
  operator : String
  value : Int

/-- A stored document as seen through the cursor with projection
`{_id: 1}`: only its identifier (already stringified) is relevant. -/
structure Document where
  oid : String

/-- Modelled from the spec: a fully materialized entity, opaque to this
core; identified here by the identifier it was resolved from. -/
structure Entity where
  eid : String

/-- The two concrete `LogicOperator` subclasses of `query.py`. -/
inductive NodeKind : Type where
  | and : NodeKind
  | or : NodeKind
deriving DecidableEq

/-- The native combinator keyword each variant emits
(`AND.bson` line 203 and `OR.bson` line 268). -/
def combinator : NodeKind → String
  | NodeKind.and => "$and"
  | NodeKind.or => "$or"

/-- Modelled from the spec: the model-class collaborator. `vars` is the
class attribute dictionary `vars(modelcls)` in insertion order, with
`some p` for attributes whose value is a `Property` descriptor and `none`
for all other attributes; `find` is the storage collaborator
(`collection.find` with the `{_id: 1}` projection), returning the
match-ordered result set behind the cursor; `resolve` is identifier
resolution (`Key.get`), returning the materialized entity or a not-found
signal. -/
structure ModelCls where
  vars : List (String × Option Property)
  find : Bson → List Document
  resolve : String → Option Entity

/-- Modelled from the spec: `Key` (from the missing `key.py`) pairs a model
with a store-assigned identifier string; `query.py` constructs it as
`Key(self._model, str(document[...]))`. -/
structure Key where
  model : ModelCls
  id : String

/-- Modelled from the spec: `Key.get()` resolves the identifier to a full
entity through the model collaborator. -/
def Key.get (k : Key) : Option Entity :=
  k.model.resolve k.id

/-- The Python exceptions that `query.py` itself can raise: `KeyError`
(failed `attr_map[...]` lookup, carrying the offending property identity)
and `AttributeError` (reading an attribute that was never assigned). -/
inductive PyErr : Type where
  | keyError : Nat → PyErr
  | attributeError : PyErr
deriving DecidableEq

/-- The `attr_map` built at the top of `AND.bson`/`OR.bson`
(query.py lines 196-201 and 261-266): iterate `vars(modelcls)`, keep the
attributes whose value is a `Property`, and map the property (by object
identity) to the attribute name; a later attribute holding the same property
overwrites an earlier one, as Python dict assignment does. `attrLookup`
is the subsequent `attr_map[p]` lookup, `none` meaning `KeyError`. -/
def attrLookup (modelcls : ModelCls) (p : Property) : Option String :=
  modelcls.vars.foldl
    (fun acc av =>
      match av.2 with
      | some q => if q.pid = p.pid then some av.1 else acc
      | none => acc)
    none

/-- A partial query, i.e. one argument of the variadic `AND`/`OR`
constructors: either a Comparison Unit, a logic node (`AND`/`OR` with its
memoization slot `_bson` and its children `_partialqueries`), or any other
object (which the compilation loop's `isinstance` dispatch skips). -/
inductive PQ : Type where
  | prop : PropertyQuery → PQ
  | logic : NodeKind → Option Bson → List PQ → PQ
  | other : PQ

/-- The `AND` constructor (query.py line 162): `_bson = None`,
`_partialqueries` as given. -/
def AND (partialqueries : List PQ) : PQ :=
  PQ.logic NodeKind.and none partialqueries

/-- The `OR` constructor (query.py line 228): `_bson = None`,
`_partialqueries` as given. -/
def OR (partialqueries : List PQ) : PQ :=
  PQ.logic NodeKind.or none partialqueries

mutual
/-- `AND.bson` (query.py lines 179-216) and `OR.bson` (lines 245-281),
which are textually identical apart from the combinator keyword. Returns
the result (or the raised exception) together with the node as it stands
after the call, making the mutation of the `_bson` cache slots explicit:
- no children: return `{}` without touching the cache;
- a cached `_bson` (always a one-key dict, hence truthy): return it;
- otherwise `self._bson` is set to the combinator document *before* the
  child loop runs, and the loop appends into it, so if a child raises, the
  partially filled document stays cached on the node.
Calling `bson` on a non-`LogicOperator` object is an `AttributeError`
(no such method); `Query` only ever holds logic nodes. -/
def bson : PQ → ModelCls → Except PyErr Bson × PQ
  | PQ.prop pq, _ => (Except.error PyErr.attributeError, PQ.prop pq)
  | PQ.other, _ => (Except.error PyErr.attributeError, PQ.other)
  | PQ.logic k cache kids, modelcls =>
    if kids.isEmpty then (Except.ok (Bson.doc []), PQ.logic k cache kids)
    else
      match cache with
      | some b => (Except.ok b, PQ.logic k (some b) kids)
      | none =>
        match bsonKids modelcls kids with
        | (frags, none, kids2) =>
          let result := Bson.doc [(combinator k, Bson.arr frags)]
          (Except.ok result, PQ.logic k (some result) kids2)
        | (frags, some e, kids2) =>
          (Except.error e,
            PQ.logic k (some (Bson.doc [(combinator k, Bson.arr frags)])) kids2)

/-- The child loop of `AND.bson`/`OR.bson` (query.py lines 206-214 and
271-279): for each partial query in order, a `PropertyQuery` child emits
`{attr_map[prop]: {operator: prop._pack(value)}}` (raising `KeyError` when
the property is not in `attr_map`), a `LogicOperator` child emits its own
recursive `bson` against the same model, and any other child is skipped.
Returns the fragments appended before any exception, the exception if one
was raised (which aborts the loop, leaving the remaining children
untouched), and the children as they stand after the loop (a nested node's
cache may have been filled by the recursive call). -/
def bsonKids : ModelCls → List PQ → List Bson × Option PyErr × List PQ
  | _, [] => ([], none, [])
  | modelcls, PQ.prop pq :: rest =>
    match attrLookup modelcls pq.property with
    | none => ([], some (PyErr.keyError pq.property.pid), PQ.prop pq :: rest)
    | some attr =>
      let frag := Bson.doc
        [(attr, Bson.doc [(pq.operator, Bson.int (pq.property.pack pq.value))])]
      match bsonKids modelcls rest with
      | (frags, err, rest2) => (frag :: frags, err, PQ.prop pq :: rest2)
  | modelcls, PQ.logic k c kk :: rest =>
    match bson (PQ.logic k c kk) modelcls with
    | (Except.ok b, child2) =>
      match bsonKids modelcls rest with
      | (frags, err, rest2) => (b :: frags, err, child2 :: rest2)
    | (Except.error e, child2) => ([], some e, child2 :: rest)
  | modelcls, PQ.other :: rest =>
    match bsonKids modelcls rest with
    | (frags, err, rest2) => (frags, err, PQ.other :: rest2)
end

/-- The `Query` object's instance state: `__init__` (query.py lines 22-35)
assigns `self._model`, `self._logic_chain`, and `self._query` (the cursor,
modelled as the match-ordered list of projected documents the storage
collaborator returns for the compiled filter). -/
structure Query : Type where
  _model : ModelCls
  _logic_chain : PQ
  _query : List Document

/-- The attribute names ever assigned on a `Query` instance: exactly the
three assignments of `__init__` (query.py lines 33-35); no other method of
the class assigns to `self`, and the class body defines no attribute or
descriptor besides its methods. -/
def Query.instanceAttrs : List String :=
  ["_model", "_logic_chain", "_query"]

/-- `Query.__init__` together with the private `_query` method
(query.py lines 22-49): eagerly compile the logic chain against the model
(an exception from `bson` propagates out of the constructor) and obtain
the cursor from `collection.find(bson, projection={_id: 1})`. The node
stored in `_logic_chain` is the same (now possibly cache-filled) object
the caller passed in. -/
def Query.init (model : ModelCls) (logic_chain : PQ) : Except PyErr Query :=
  match bson logic_chain model with
  | (Except.ok b, chain2) =>
    Except.ok { _model := model, _logic_chain := chain2, _query := model.find b }
  | (Except.error e, _) => Except.error e

/-- `Query.count` (query.py line 93): the cursor's total match count. -/
def Query.count (q : Query) : Nat :=
  q._query.length

/-- The result of fetching one matched document: a `Key`, or the entity
`Key(...).get()` resolves to. -/
inductive FetchResult : Type where
  | key : Key → FetchResult
  | entity : Option Entity → FetchResult

/-- `Query.fetch` (query.py lines 67-82): slice the cursor to
`[offset, offset+count)` (Python slicing with non-negative bounds:
drop `offset`, then take `count`; out-of-range bounds just shorten the
slice) and wrap each document's identifier in a `Key`, resolving it unless
`keys_only`. -/
def Query.fetch (q : Query) (offset : Nat) (count : Nat) (keys_only : Bool) :
    List FetchResult :=
  let subsection := (q._query.drop offset).take count
  if keys_only then
    subsection.map fun document => FetchResult.key ⟨q._model, document.oid⟩
  else
    subsection.map fun document => FetchResult.entity (Key.get ⟨q._model, document.oid⟩)

/-- `Query.get` (query.py lines 95-112): `None` when `count() == 0`,
otherwise a `Key` over the first cursor document, resolved unless
`keys_only`. -/
def Query.get (q : Query) (keys_only : Bool) : Option FetchResult :=
  if q.count = 0 then none
  else
    match q._query with
    | [] => none
    | document :: _ =>
      let key : Key := ⟨q._model, document.oid⟩
      if keys_only then some (FetchResult.key key)
      else some (FetchResult.entity (Key.get key))

/-- One element yielded by the `iter` generator: the bare `Key` yielded by
`yield key`, or the resolution yielded by `yield key.get()`. -/
inductive IterItem : Type where
  | key : Key → IterItem
  | entity : Option Entity → IterItem

/-- `Query.iter` (query.py lines 131-146), the generator behind the
iteration protocol. For every cursor document it builds the `Key`; when
`keys_only` it yields the key and then — the `yield key.get()` line is not
guarded by an `else` — *also* yields the resolution; when not `keys_only`
it yields only the resolution. -/
def Query.iter (q : Query) (keys_only : Bool) : List IterItem :=
  q._query.flatMap fun document =>
    let key : Key := ⟨q._model, document.oid⟩
    if keys_only then [IterItem.key key, IterItem.entity (Key.get key)]
    else [IterItem.entity (Key.get key)]

/-- `Query.filter` (query.py lines 51-65): the body evaluates
`AND(self.logic_chain, *args)` — but the instance attribute is named
`_logic_chain` (see `Query.instanceAttrs`), and no attribute
`logic_chain` exists on the class or the instance, so Python raises
`AttributeError` before anything else happens. The branch below the
attribute check is the line as written, reading the attribute it asks
for: it would wrap the existing root and the arguments in a fresh `AND`
and construct a new `Query` from it. -/
def Query.filter (q : Query) (args : List PQ) : Except PyErr Query :=
  if Query.instanceAttrs.contains "logic_chain" then
    Query.init q._model (AND (q._logic_chain :: args))
  else Except.error PyErr.attributeError

/-- The filter fragment the compilation loop emits for a Comparison Unit
child (query.py lines 208-212 / 273-277): `none` when the `attr_map`
lookup would raise `KeyError`, otherwise
`{resolvedFieldName: {operator: packedValue}}`. -/
def compiledFrag (modelcls : ModelCls) (pq : PropertyQuery) : Option Bson :=
  (attrLookup modelcls pq.property).map fun attr =>
    Bson.doc [(attr, Bson.doc [(pq.operator, Bson.int (pq.property.pack pq.value))])]

/-- The compilation loop never adds or removes children: the updated
children list has the length of the original. -/
theorem bsonKids_length (modelcls : ModelCls) (kids : List PQ) :
    (bsonKids modelcls kids).2.2.length = kids.length := by
  induction kids with
  | nil => rfl
  | cons c rest ih =>
    rcases hr : bsonKids modelcls rest with ⟨f, e, r2⟩
    have hl : r2.length = rest.length := by rw [← ih, hr]
    cases c with
    | prop pq =>
      cases ha : attrLookup modelcls pq.property <;>
        simp [bsonKids, ha, hr, hl]
    | logic k cch kk =>
      rcases hb : bson (PQ.logic k cch kk) modelcls with ⟨res, child2⟩
      cases res <;> simp [bsonKids, hb, hr, hl]
    | other => simp [bsonKids, hr, hl]

/-- On a list of Comparison Unit children all of whose properties resolve
against the model, the compilation loop succeeds and emits exactly one
fragment per child, in child order, leaving the children unchanged. -/
theorem bsonKids_props (modelcls : ModelCls) (pqs : List PropertyQuery)
    (h : ∀ pq ∈ pqs, (compiledFrag modelcls pq).isSome) :
    bsonKids modelcls (pqs.map PQ.prop) =
      (pqs.filterMap (compiledFrag modelcls), none, pqs.map PQ.prop) := by
  induction pqs with
  | nil => rfl
  | cons pq rest ih =>
    have hpq := h pq (List.mem_cons_self pq rest)
    have ihr := ih fun x hx => h x (List.mem_cons_of_mem pq hx)
    cases ha : attrLookup modelcls pq.property with
    | none => rw [compiledFrag, ha] at hpq; simp at hpq
    | some attr =>
      simp [bsonKids, ha, ihr, List.filterMap_cons, compiledFrag]

/-- A `filterMap` by a function that is `some` on every element of the
list keeps the list's length. -/
theorem filterMap_length_of_isSome {α β : Type} (f : α → Option β)
    (l : List α) (h : ∀ a ∈ l, (f a).isSome) :
    (l.filterMap f).length = l.length := by
  induction l with
  | nil => rfl
  | cons a rest ih =>
    obtain ⟨b, hb⟩ := Option.isSome_iff_exists.mp (h a (List.mem_cons_self a rest))
    have ihr := ih fun x hx => h x (List.mem_cons_of_mem a hx)
    simp [List.filterMap_cons, hb, ihr]

/-- Concrete property descriptor declared as `email` on `mdl1`. -/
def p1 : Property := ⟨1, fun v => v⟩

/-- Concrete property descriptor declared as `age` on `mdl1`;
its packing function is not the identity. -/
def p2 : Property := ⟨2, fun v => v + 1⟩

/-- Concrete property descriptor declared on no model below. -/
def p3 : Property := ⟨3, fun v => v⟩

/-- Concrete stored documents. -/
def dW0 : Document := ⟨"d0"⟩

def dW1 : Document := ⟨"d1"⟩

def dW2 : Document := ⟨"d2"⟩

/-- Concrete model class declaring `p1` as `email` and `p2` as `age`
(with a non-`Property` class attribute in between), over a collection of
three documents, resolving every identifier. -/
def mdl1 : ModelCls :=
  { vars := [("email", some p1), ("version", none), ("age", some p2)]
    find := fun _ => [dW0, dW1, dW2]
    resolve := fun s => some ⟨s⟩ }

/-- A second, different concrete model class: it declares `p2` under the
different attribute name `years` and does not declare `p1` at all, over an
empty collection. -/
def mdl2 : ModelCls :=
  { vars := [("years", some p2)]
    find := fun _ => []
    resolve := fun _ => none }

/-- Concrete Comparison Units against `p1`, `p2` and the undeclared `p3`. -/
def pqA : PropertyQuery := ⟨p1, "$eq", 5⟩

def pqB : PropertyQuery := ⟨p2, "$lt", 25⟩

def pqU : PropertyQuery := ⟨p3, "$gt", 0⟩

/-- The fragments `mdl1` compilation emits for `pqA` and `pqB`
(note `pqB`'s value 25 packs to 26). -/
def fragA : Bson := Bson.doc [("email", Bson.doc [("$eq", Bson.int 5)])]

def fragB : Bson := Bson.doc [("age", Bson.doc [("$lt", Bson.int 26)])]

/-- A concrete query over `mdl1` whose cursor matched all three documents. -/
def qW : Query := ⟨mdl1, AND [], [dW0, dW1, dW2]⟩

/-- A concrete query over `mdl2` whose cursor matched nothing. -/
def qEmpty : Query := ⟨mdl2, OR [], []⟩

/-- C6: for every model, compiling `AND()` with no children and `OR()`
with no children each return the empty match-all document `{}`, not a
document holding an empty combinator array. -/
theorem c6_empty_combinator_match_all (modelcls : ModelCls) :
    bson (AND []) modelcls = (Except.ok (Bson.doc []), AND []) ∧
    bson (OR []) modelcls = (Except.ok (Bson.doc []), OR []) :=
  ⟨rfl, rfl⟩

/-- C9: `fetch` with the default `count = 0` (for any offset, in
particular the default `offset = 0`) returns the empty list no matter how
many documents the query matched. -/
theorem c9_default_fetch_empty (q : Query) (offset : Nat) (keys_only : Bool) :
    Query.fetch q offset 0 keys_only = [] := by
  cases keys_only <;> simp [Query.fetch]

/-- C2: `Query.filter` never returns a new query at all — the body reads
the nonexistent attribute `logic_chain` (the instance attribute is named
`_logic_chain`), so every call raises `AttributeError`. -/
theorem c2_filter_always_raises (q : Query) (args : List PQ) :
    Query.filter q args = Except.error PyErr.attributeError :=
  rfl

/-- C10: a child that is neither a Comparison Unit nor a `LogicOperator`
is silently skipped: the loop emits the same fragments and the same error
status as without it, and when the remaining children compile cleanly the
node as a whole compiles without error, its combinator array holding no
fragment for the skipped child. -/
theorem c10_foreign_child_skipped (modelcls : ModelCls) (rest : List PQ) :
    (bsonKids modelcls (PQ.other :: rest)).1 = (bsonKids modelcls rest).1 ∧
    (bsonKids modelcls (PQ.other :: rest)).2.1 = (bsonKids modelcls rest).2.1 ∧
    ((bsonKids modelcls rest).2.1 = none → ∀ k : NodeKind,
      (bson (PQ.logic k none (PQ.other :: rest)) modelcls).1 =
        Except.ok (Bson.doc [(combinator k, Bson.arr (bsonKids modelcls rest).1)])) := by
  rcases hr : bsonKids modelcls rest with ⟨f, e, r2⟩
  refine ⟨by simp [bsonKids, hr], by simp [bsonKids, hr], ?_⟩
  intro he k
  subst he
  simp [bson, bsonKids, hr]

/-- C1: for an `AND` or `OR` node with at least one child whose first
compilation (fresh cache) against a model `m1` returned `b`, every later
compilation of the node — against `m1` again or against any other model
`m2` — returns the same `b` and leaves the node unchanged: the cache is
keyed by node identity only, never by model. -/
theorem c1_cache_ignores_model (k : NodeKind) (kids : List PQ)
    (m1 m2 : ModelCls) (b : Bson) (n2 : PQ)
    (hk : kids ≠ [])
    (h : bson (PQ.logic k none kids) m1 = (Except.ok b, n2)) :
    bson n2 m2 = (Except.ok b, n2) := by
  have hke : kids.isEmpty = false := by
    cases kids with
    | nil => exact absurd rfl hk
    | cons c rest => rfl
  rcases hb : bsonKids m1 kids with ⟨frags, err, kids2⟩
  cases err with
  | none =>
    rw [bson, hke] at h
    simp only [Bool.false_eq_true, if_false, hb] at h
    obtain ⟨h1, h2⟩ := Prod.mk.injEq .. |>.mp h
    have hb2 : b = Bson.doc [(combinator k, Bson.arr frags)] :=
      (Except.ok.injEq .. |>.mp h1).symm
    have hk2 : kids2.isEmpty = false := by
      have := bsonKids_length m1 kids
      rw [hb] at this
      cases kids2 with
      | nil => cases kids with
        | nil => exact absurd rfl hk
        | cons c rest => simp at this
      | cons c rest => rfl
    rw [← h2, bson, hk2]
    simp [hb2]
  | some e =>
    rw [bson, hke] at h
    simp only [Bool.false_eq_true, if_false, hb] at h
    exact absurd (Prod.mk.injEq .. |>.mp h).1 (by simp)

/-- Witness for C1: the node `AND(pqA)` compiled first against `mdl1`
(which resolves `pqA` to field `email`) and then against `mdl2` (which
does not declare `pqA`'s property at all) still returns `mdl1`'s filter. -/
theorem c1_cache_ignores_model_witness :
    bson (PQ.logic NodeKind.and (some (Bson.doc [("$and", Bson.arr [fragA])]))
        [PQ.prop pqA]) mdl2 =
      (Except.ok (Bson.doc [("$and", Bson.arr [fragA])]),
        PQ.logic NodeKind.and (some (Bson.doc [("$and", Bson.arr [fragA])]))
          [PQ.prop pqA]) :=
  c1_cache_ignores_model NodeKind.and [PQ.prop pqA] mdl1 mdl2
    (Bson.doc [("$and", Bson.arr [fragA])])
    (PQ.logic NodeKind.and (some (Bson.doc [("$and", Bson.arr [fragA])]))
      [PQ.prop pqA])
    (by simp) rfl

/-- C3: (1) a first compilation (fresh cache) of an `AND` or `OR` node
built from N ≥ 1 Comparison Units that all resolve against the model
yields `{combinator: [f1, …, fN]}` — exactly one fragment per child, in
child order, each of the shape `{resolvedFieldName: {operator:
packedValue}}` (`compiledFrag`); (2) a nested logic node child is
recursively compiled against the same model and embedded in place:
`AND(cmp1, OR(cmp2, cmp3))` compiles to
`{"$and": [f1, {"$or": [f2, f3]}]}`. -/
theorem c3_structural_fidelity :
    (∀ (k : NodeKind) (modelcls : ModelCls) (pqs : List PropertyQuery),
      pqs ≠ [] →
      (∀ pq ∈ pqs, (compiledFrag modelcls pq).isSome) →
      (bson (PQ.logic k none (pqs.map PQ.prop)) modelcls).1 =
        Except.ok (Bson.doc
          [(combinator k, Bson.arr (pqs.filterMap (compiledFrag modelcls)))]) ∧
      (pqs.filterMap (compiledFrag modelcls)).length = pqs.length) ∧
    (∀ (modelcls : ModelCls) (pq1 pq2 pq3 : PropertyQuery) (f1 f2 f3 : Bson),
      compiledFrag modelcls pq1 = some f1 →
      compiledFrag modelcls pq2 = some f2 →
      compiledFrag modelcls pq3 = some f3 →
      (bson (AND [PQ.prop pq1, OR [PQ.prop pq2, PQ.prop pq3]]) modelcls).1 =
        Except.ok (Bson.doc [("$and", Bson.arr
          [f1, Bson.doc [("$or", Bson.arr [f2, f3])]])])) := by
  constructor
  · intro k modelcls pqs hne h
    have hke : (pqs.map PQ.prop).isEmpty = false := by
      cases pqs with
      | nil => exact absurd rfl hne
      | cons a l => rfl
    refine ⟨?_, filterMap_length_of_isSome (compiledFrag modelcls) pqs h⟩
    rw [bson, hke]
    simp [bsonKids_props modelcls pqs h]
  · intro modelcls pq1 pq2 pq3 f1 f2 f3 h1 h2 h3
    obtain ⟨a1, ha1, hf1⟩ := Option.map_eq_some'.mp h1
    obtain ⟨a2, ha2, hf2⟩ := Option.map_eq_some'.mp h2
    obtain ⟨a3, ha3, hf3⟩ := Option.map_eq_some'.mp h3
    simp [AND, OR, bson, bsonKids, ha1, ha2, ha3, combinator,
      ← hf1, ← hf2, ← hf3]

/-- Witness for C3: part (1) at the two-unit node `AND(pqA, pqB)` against
`mdl1` (fields `email` and `age`, `pqB`'s value 25 packing to 26), and
part (2) at `AND(pqA, OR(pqB, pqA))` against `mdl1`. -/
theorem c3_structural_fidelity_witness :
    ((bson (PQ.logic NodeKind.and none ([pqA, pqB].map PQ.prop)) mdl1).1 =
      Except.ok (Bson.doc
        [("$and", Bson.arr ([pqA, pqB].filterMap (compiledFrag mdl1)))]) ∧
      ([pqA, pqB].filterMap (compiledFrag mdl1)).length = [pqA, pqB].length) ∧
    (bson (AND [PQ.prop pqA, OR [PQ.prop pqB, PQ.prop pqA]]) mdl1).1 =
      Except.ok (Bson.doc [("$and", Bson.arr
        [fragA, Bson.doc [("$or", Bson.arr [fragB, fragA])]])]) :=
  ⟨c3_structural_fidelity.1 NodeKind.and mdl1 [pqA, pqB] (by simp)
      (by decide),
    c3_structural_fidelity.2 mdl1 pqA pqB pqA fragA fragB fragA rfl rfl rfl⟩

/-- The partially built filter that a failed compilation of
`AND(pqA, pqU)` against `mdl1` leaves behind: `pqA`'s fragment made it into
the combinator array before `pqU`'s lookup raised. -/
def partialBson : Bson := Bson.doc [("$and", Bson.arr [fragA])]

/-- Counterexample to C5 as stated: compiling the fresh node
`AND(pqA, pqU)` against `mdl1` raises `KeyError` on the undeclared `pqU`
— but the failed call is not atomic: it leaves the node's cache holding
the partially built `{"$and": [fragA]}`, and the subsequent compile call
(same node, same model) does not fail again as a fresh call would; it
returns that partial filter. -/
theorem c5_counterexample :
    (bson (AND [PQ.prop pqA, PQ.prop pqU]) mdl1).1 =
      Except.error (PyErr.keyError 3) ∧
    (bson (AND [PQ.prop pqA, PQ.prop pqU]) mdl1).2 =
      PQ.logic NodeKind.and (some partialBson) [PQ.prop pqA, PQ.prop pqU] ∧
    bson (PQ.logic NodeKind.and (some partialBson)
        [PQ.prop pqA, PQ.prop pqU]) mdl1 =
      (Except.ok partialBson,
        PQ.logic NodeKind.and (some partialBson) [PQ.prop pqA, PQ.prop pqU]) :=
  ⟨rfl, rfl, rfl⟩

/-- C5 amended: when compiling a fresh `AND`/`OR` node fails (an
undeclared child property raising `KeyError`), the error does propagate,
but the failure is not atomic: the failed call caches the partially built
combinator document (holding exactly the fragments of the children
compiled before the failing one), and a subsequent compile call — against
any model — returns that partial filter successfully instead of behaving
as if the failed call never happened. -/
theorem c5_failed_compile_caches_partial (k : NodeKind) (kids : List PQ)
    (m1 m2 : ModelCls) (e : PyErr) (n2 : PQ)
    (h : bson (PQ.logic k none kids) m1 = (Except.error e, n2)) :
    n2 = PQ.logic k
        (some (Bson.doc [(combinator k, Bson.arr (bsonKids m1 kids).1)]))
        (bsonKids m1 kids).2.2 ∧
    bson n2 m2 =
      (Except.ok (Bson.doc [(combinator k, Bson.arr (bsonKids m1 kids).1)]), n2) := by
  have hk : kids ≠ [] := by
    intro hnil
    rw [hnil] at h
    exact absurd ((Prod.mk.injEq .. |>.mp h).1) (by simp [bson])
  have hke : kids.isEmpty = false := by
    cases kids with
    | nil => exact absurd rfl hk
    | cons c rest => rfl
  rcases hb : bsonKids m1 kids with ⟨frags, err, kids2⟩
  cases err with
  | none =>
    rw [bson, hke] at h
    simp only [Bool.false_eq_true, if_false, hb] at h
    exact absurd (Prod.mk.injEq .. |>.mp h).1 (by simp)
  | some e2 =>
    rw [bson, hke] at h
    simp only [Bool.false_eq_true, if_false, hb] at h
    obtain ⟨h1, h2⟩ := Prod.mk.injEq .. |>.mp h
    have hk2 : kids2.isEmpty = false := by
      have := bsonKids_length m1 kids
      rw [hb] at this
      cases kids2 with
      | nil => cases kids with
        | nil => exact absurd rfl hk
        | cons c rest => simp at this
      | cons c rest => rfl
    refine ⟨h2.symm, ?_⟩
    rw [← h2, bson, hk2]
    simp

/-- Witness for C5 (amended): the failed compile of `AND(pqA, pqU)`
against `mdl1` produces the partially cached node, and recompiling that
node against the different model `mdl2` returns the partial filter. -/
theorem c5_failed_compile_caches_partial_witness :
    PQ.logic NodeKind.and (some partialBson) [PQ.prop pqA, PQ.prop pqU] =
      PQ.logic NodeKind.and
        (some (Bson.doc [(combinator NodeKind.and,
          Bson.arr (bsonKids mdl1 [PQ.prop pqA, PQ.prop pqU]).1)]))
        (bsonKids mdl1 [PQ.prop pqA, PQ.prop pqU]).2.2 ∧
    bson (PQ.logic NodeKind.and (some partialBson)
        [PQ.prop pqA, PQ.prop pqU]) mdl2 =
      (Except.ok (Bson.doc [(combinator NodeKind.and,
          Bson.arr (bsonKids mdl1 [PQ.prop pqA, PQ.prop pqU]).1)]),
        PQ.logic NodeKind.and (some partialBson) [PQ.prop pqA, PQ.prop pqU]) :=
  c5_failed_compile_caches_partial NodeKind.and [PQ.prop pqA, PQ.prop pqU]
    mdl1 mdl2 (PyErr.keyError 3)
    (PQ.logic NodeKind.and (some partialBson) [PQ.prop pqA, PQ.prop pqU]) rfl

/-- C7: `fetch(offset, count, keysOnly)` returns exactly the matched
documents at positions `[offset, offset+count)`: its length is
`min count (M - offset)` (so an out-of-range window just shortens to a
shorter or empty list, never an error), and position `i < count` of the
returned list is the match at position `offset + i`, as a `Key` when
`keysOnly` and as the resolved entity otherwise. -/
theorem c7_fetch_window (q : Query) (offset count : Nat) (keys_only : Bool) :
    (Query.fetch q offset count keys_only).length = min count (q.count - offset) ∧
    ∀ i : Nat, i < count →
      (Query.fetch q offset count keys_only)[i]? =
        (q._query[offset + i]?).map fun document =>
          if keys_only then FetchResult.key ⟨q._model, document.oid⟩
          else FetchResult.entity (Key.get ⟨q._model, document.oid⟩) := by
  constructor
  · cases keys_only <;>
      simp [Query.fetch, Query.count, List.length_take, List.length_drop]
  · intro i hi
    cases keys_only <;>
      simp [Query.fetch, List.getElem?_map, List.getElem?_take, hi,
        List.getElem?_drop]

/-- Witness for C7: on the three-document query `qW`, the window
`[1, 1+5)` has length `min 5 (3 - 1) = 2` and its first element is the
`Key` of the document at position `1 + 0`. -/
theorem c7_fetch_window_witness :
    (Query.fetch qW 1 5 true).length = min 5 (qW.count - 1) ∧
    (Query.fetch qW 1 5 true)[0]? =
      (qW._query[1 + 0]?).map fun document =>
        if true then FetchResult.key ⟨qW._model, document.oid⟩
        else FetchResult.entity (Key.get ⟨qW._model, document.oid⟩) :=
  ⟨(c7_fetch_window qW 1 5 true).1,
    (c7_fetch_window qW 1 5 true).2 0 (by decide)⟩

/-- C8: `get(keysOnly)` returns the explicit no-match value `None` (not an
error) when the query matches zero documents; when the cursor holds a
first match it returns exactly that first match — as a `Key` when
`keysOnly`, as the resolved entity otherwise — regardless of how many
further matches follow. -/
theorem c8_get_first_or_none (q : Query) (keys_only : Bool) :
    (q.count = 0 → Query.get q keys_only = none) ∧
    ∀ (document : Document) (rest : List Document),
      q._query = document :: rest →
      Query.get q keys_only =
        some (if keys_only then FetchResult.key ⟨q._model, document.oid⟩
          else FetchResult.entity (Key.get ⟨q._model, document.oid⟩)) := by
  constructor
  · intro h0
    simp [Query.get, h0]
  · intro document rest hq
    have hne : q.count ≠ 0 := by simp [Query.count, hq]
    cases keys_only <;> simp [Query.get, hq, hne]

/-- Witness for C8: `get` on the empty-match query `qEmpty` is `None`;
`get(keysOnly=False)` on the three-match query `qW` is the entity resolved
from the first match `dW0`, the later matches notwithstanding. -/
theorem c8_get_first_or_none_witness :
    Query.get qEmpty true = none ∧
    Query.get qW false =
      some (if false then FetchResult.key ⟨qW._model, dW0.oid⟩
        else FetchResult.entity (Key.get ⟨qW._model, dW0.oid⟩)) :=
  ⟨(c8_get_first_or_none qEmpty true).1 rfl,
    (c8_get_first_or_none qW false).2 dW0 [dW1, dW2] rfl⟩

/-- C4 evaluation at its failing input: on the one-match query below,
iteration with `keysOnly=True` yields *two* items for the single matched
document — the `Key` and then, because the `yield key.get()` line is not
in an `else` branch, also the resolved entity (a resolution round-trip the
claim says must not happen); with `keysOnly=False` it correctly yields the
one resolved entity. -/
theorem c4_iter_yields_twice_when_keys_only :
    Query.init mdl1 (AND []) = Except.ok ⟨mdl1, AND [], [dW0, dW1, dW2]⟩ ∧
    Query.iter ⟨mdl1, AND [], [dW0]⟩ true =
      [IterItem.key ⟨mdl1, "d0"⟩, IterItem.entity (some ⟨"d0"⟩)] ∧
    Query.iter ⟨mdl1, AND [], [dW0]⟩ false =
      [IterItem.entity (some ⟨"d0"⟩)] :=
  ⟨rfl, rfl, rfl⟩

/-- Witness for C10: against `mdl1`, prepending a foreign child to the
one-unit child list `[pqA]` changes neither the emitted fragments nor the
error status, and the node `AND(foreign, pqA)` compiles without error to a
one-fragment combinator array. -/
theorem c10_foreign_child_skipped_witness :
    (bsonKids mdl1 (PQ.other :: [PQ.prop pqA])).1 =
      (bsonKids mdl1 [PQ.prop pqA]).1 ∧
    (bsonKids mdl1 (PQ.other :: [PQ.prop pqA])).2.1 =
      (bsonKids mdl1 [PQ.prop pqA]).2.1 ∧
    (bson (PQ.logic NodeKind.and none (PQ.other :: [PQ.prop pqA])) mdl1).1 =
      Except.ok (Bson.doc [(combinator NodeKind.and,
        Bson.arr (bsonKids mdl1 [PQ.prop pqA]).1)]) :=
  ⟨(c10_foreign_child_skipped mdl1 [PQ.prop pqA]).1,
    (c10_foreign_child_skipped mdl1 [PQ.prop pqA]).2.1,
    (c10_foreign_child_skipped mdl1 [PQ.prop pqA]).2.2 rfl NodeKind.and⟩

end TableMongo
